import Mathlib

/-!
Shallow embedding of the dialog orchestration engine of the repository
(app/services/dialog.py) together with the pieces of its collaborators that
determine its observable behaviour (app/services/profile.py,
app/schemas/lead.py, app/utils/db_service.py, app/models/order.py).

Modelling conventions:
  * Python/JSON values produced by json.loads are modelled by the inductive
    type JValue; Python truthiness, isinstance(..., str) and str() rendering
    are modelled by pyTruthy, pyIsStr and pyStr.
  * The stored lead record (table leads, columns relevant to the engine) is
    the structure Lead; the store for one client is an Option Lead.
  * The text column leads.log always holds json.dumps of the in-memory
    dialog history, so serialisation is modelled by the type HistVal:
    HistVal.ok h stands for the dumps of the history h, HistVal.notList for a
    valid-JSON text that is not a list, HistVal.invalid for unparseable text
    (an empty-string column behaves like HistVal.invalid in load_history:
    both yield the empty history and keep the lead).
  * External collaborator outcomes (order fetch, FAQ read, semantic search,
    the LLM completion, Python json.loads on the cleaned LLM text) are inputs
    of one turn, bundled in TurnEnv; an Except.error carries str(exception).
  * Raised-and-uncaught Python exceptions are the Except.error result of
    step; logging calls are omitted (app.state.log is always installed at
    startup in app/main.py and log calls have no other observable effect).
  * Persistence side effects are recorded as the trace ops of the turn, in
    execution order.  update_lead_service applies the exclude_unset fields of
    the payload to the session-attached ORM object and commits; because
    read_lead_service and update_lead_service use the same per-request
    session (request.state.db, one AsyncSessionLocal per request installed by
    DBSessionMiddleware), the object updated is the identity-mapped object
    whose name/contact step() mutated in place, so the single commit flushes
    name, contact and log together.  Op.updateLead therefore carries all
    three fields of that single combined write.
  * Python character-count slicing s[:n] is pySliceTo, the trailing slice of
    n characters is pySliceLast; both act on code points, as Python does.
  * The create path (save_history with no lead, clear_dialog with no stored
    record) passes id=client_id to LeadCreate, but LeadCreate declares only
    name/contact/log and Pydantic ignores unknown constructor kwargs, so
    create_lead_service builds LeadModel(**lead.dict()) without an id and
    inserts a row with a fresh autoincrement id (Lead.id is the autoincrement
    primary key).  Op.createLead therefore carries no client identity and the
    clientId-keyed store stays absent (a coincidence of the autoincrement
    value with client_id lies outside the model).
-/

namespace App

/-- Python/JSON values as returned by json.loads (numbers collapsed to Int:
no claim depends on fractional values). -/
inductive JValue where
  | null : JValue
  | bool : Bool → JValue
  | num : Int → JValue
  | str : String → JValue
  | arr : List JValue → JValue
  | obj : List (String × JValue) → JValue

/-- Python truthiness of a JSON value. -/
def pyTruthy : JValue → Bool
  | JValue.null => false
  | JValue.bool b => b
  | JValue.num n => !(n == 0)
  | JValue.str s => !(s == "")
  | JValue.arr xs => !xs.isEmpty
  | JValue.obj kvs => !kvs.isEmpty

/-- Python isinstance(v, str). -/
def pyIsStr : JValue → Bool
  | JValue.str _ => true
  | _ => false

/-- The string payload of a JValue.str (used only under a pyIsStr guard). -/
def pyStrVal : JValue → String
  | JValue.str s => s
  | _ => ""

/-- type(v).__name__ as it appears in Python error messages. -/
def pyTypeName : JValue → String
  | JValue.null => "NoneType"
  | JValue.bool _ => "bool"
  | JValue.num _ => "int"
  | JValue.str _ => "str"
  | JValue.arr _ => "list"
  | JValue.obj _ => "dict"

mutual
/-- Python repr() of a JSON value (string escaping inside repr is not
modelled beyond quoting; no claim depends on it). -/
def pyRepr : JValue → String
  | JValue.null => "None"
  | JValue.bool true => "True"
  | JValue.bool false => "False"
  | JValue.num n => toString n
  | JValue.str s => "\x27" ++ s ++ "\x27"
  | JValue.arr xs => "[" ++ String.intercalate ", " (pyReprList xs) ++ "]"
  | JValue.obj kvs => "\x7b" ++ String.intercalate ", " (pyReprPairs kvs) ++ "\x7d"

def pyReprList : List JValue → List String
  | [] => []
  | x :: xs => pyRepr x :: pyReprList xs

def pyReprPairs : List (String × JValue) → List String
  | [] => []
  | (k, v) :: xs => ("\x27" ++ k ++ "\x27: " ++ pyRepr v) :: pyReprPairs xs
end

/-- Python str() of a JSON value, as applied by f-string interpolation. -/
def pyStr : JValue → String
  | JValue.str s => s
  | v => pyRepr v

/-- Python dict.get(key, default) on a parsed JSON object (json.loads keeps
one binding per key, so the association list has unique keys). -/
def jgetD : List (String × JValue) → String → JValue → JValue
  | [], _, d => d
  | (k, v) :: rest, key, d => if k == key then v else jgetD rest key d

/-- Key lookup on a parsed JSON object (dict membership). -/
def jlookup : List (String × JValue) → String → Option JValue
  | [], _ => none
  | (k, v) :: rest, key => if k == key then some v else jlookup rest key

/-- Python s[:n]: the leading slice of n code points. -/
def pySliceTo (s : String) (n : Nat) : String := String.mk (s.data.take n)

/-- The trailing slice of n code points of a string (what the spec alleges
the history truncation takes). -/
def pySliceLast (s : String) (n : Nat) : String :=
  String.mk (s.data.drop (s.data.length - n))

/-- Python str.strip() restricted to its use sites (emptiness tests and the
fixed system prompt): drops whitespace from both ends. -/
def pyStrip (s : String) : String :=
  String.mk (((s.data.dropWhile Char.isWhitespace).reverse.dropWhile
      Char.isWhitespace).reverse)

/-- One entry of the in-memory dialog history
part: a dict with role and content; content may be any JSON value because
the assistant entry stores model_answer as parsed. -/
structure HMsg where
  role : String
  content : JValue

/-- One entry of the prompt messages list sent to gpt_request: role and
content are always strings in step(). -/
structure PMsg where
  role : String
  content : String
deriving DecidableEq

/-- Deserialisation outcomes of the text column leads.log (always written by
the engine as json.dumps of the history). -/
inductive HistVal where
  | ok : List HMsg → HistVal
  | notList : HistVal
  | invalid : HistVal

/-- The lead record (app/models/lead.py), restricted to the columns the
dialog engine reads and writes.  name and contact hold the Python value
stored in the nullable string columns (JValue.null for NULL). -/
structure Lead where
  id : Int
  name : JValue
  contact : JValue
  log : Option HistVal

/-- An order record (app/models/order.py): id plus nullable text columns. -/
structure OrderRec where
  id : Int
  date : Option String
  customer : Option String
  phone : Option String
  products : Option String
  sum : Option String
  status : Option String
  payment : Option String
  delivery : Option String
  track : Option String

/-- A semantic search hit as consumed by step(); the float score is carried
as its already-formatted 3-decimal rendering (float formatting is part of
the collaborator boundary; no claim depends on it). -/
structure SearchHit where
  scoreStr : String
  content : String

/-- A persistence side effect of one engine operation, in execution order.
updateLead is keyed by the id passed to update_lead_service; createLead is
the insert of a fresh autoincrement lead row carrying only name, contact and
log — the id=client_id kwarg passed at both call sites is silently discarded
by LeadCreate, which declares no id field. -/
inductive Op where
  | execSql : String → Op
  | updateLead : Int → JValue → JValue → HistVal → Op
  | createLead : JValue → JValue → HistVal → Op

/-- json.loads(lead.log) followed by the isinstance-list guard of
load_history: any non-list or unparseable (or empty/NULL) column yields []. -/
def parseLog : Option HistVal → List HMsg
  | some (HistVal.ok h) => h
  | _ => []

/-- AssistantDialog.load_history: one read of the lead; a missing record
(read_lead_service raises 404) yields (None, []); otherwise the history is
the tolerant decode of lead.log. -/
def load_history : Option Lead → Option Lead × List HMsg
  | none => (none, [])
  | some l => (some l, parseLog l.log)

/-- AssistantDialog.save_history: one combined write.  With a lead object the
payload LeadBase(log=dumps(history)) is applied by update_lead_service with
exclude_unset to the identity-mapped session object and the commit flushes
the in-place name/contact mutations of step 9 together with log (see the
header comment).  Without a lead, LeadCreate(**payload) silently drops the
id=client_id entry of the payload (LeadCreate declares no id field) and
leaves name and contact at their None defaults, so create_lead_service
inserts a fresh autoincrement row and the clientId-keyed record remains
absent.  Returns the recorded write and the resulting clientId-keyed
record. -/
def save_history (client_id : Int) (lead : Option Lead) (hist : List HMsg) :
    Op × Option Lead :=
  match lead with
  | some l =>
      (Op.updateLead client_id l.name l.contact (HistVal.ok hist),
       some ⟨l.id, l.name, l.contact, some (HistVal.ok hist)⟩)
  | none =>
      (Op.createLead JValue.null JValue.null (HistVal.ok hist), none)

/-- AssistantDialog.clear_dialog: read the lead (a raised 404 is caught and
treated as absence); update it to LeadBase(name=None, contact=None,
log=dumps([])) if present.  If absent, the code builds
LeadCreate(id=client_id, **empty_lead.model_dump()), but the id kwarg is
silently dropped (LeadCreate declares no id field), so an identity-less
autoincrement row is inserted and the clientId-keyed record remains
absent. -/
def clear_dialog (client_id : Int) (store : Option Lead) : Op × Option Lead :=
  match store with
  | some l =>
      (Op.updateLead client_id JValue.null JValue.null (HistVal.ok []),
       some ⟨l.id, JValue.null, JValue.null, some (HistVal.ok [])⟩)
  | none =>
      (Op.createLead JValue.null JValue.null (HistVal.ok []), none)

/-- Python x or dash on a nullable string column inside the order f-string:
None and the empty string render as a dash. -/
def orDash : Option String → String
  | none => "-"
  | some s => if s == "" then "-" else s

/-- The per-order line of step() section 2 (dialog.py lines 173-177). -/
def formatOrderLine (o : OrderRec) : String :=
  "#" ++ toString o.id ++ ": " ++ orDash o.date ++ " | " ++ orDash o.customer
    ++ " | " ++ orDash o.phone ++ " | " ++ orDash o.products ++ " | "
    ++ orDash o.sum ++ " | " ++ orDash o.status ++ " | " ++ orDash o.payment
    ++ " | " ++ orDash o.delivery ++ " | " ++ orDash o.track

/-- step() section 2: the orders text; cancelled orders are skipped; a fetch
failure is replaced by an error-description string; the placeholder stands
when nothing was formatted. -/
def ordersTextOf : Except String (List OrderRec) → String
  | Except.error e => "Ошибка чтения заказов: " ++ e
  | Except.ok orders =>
      let fo := (orders.filter fun o =>
        !(o.status == some "отменен")).map formatOrderLine
      if fo.isEmpty then "— заказы не найдены —" else String.intercalate "\n" fo

/-- The chunk line of step() section 3 ("- (score=...) content"). -/
def chunkLine (r : SearchHit) : String :=
  "- (score=" ++ r.scoreStr ++ ") " ++ r.content

/-- step() section 3: faq_text and chunks_text.  Both start empty; when
self.base is installed, one try block wraps base_read and search_chunks, so a
failure of either assigns the error string to faq_text and leaves chunks_text
at its value at the raise point (the empty string: the chunks assignment
comes after search_chunks). -/
def knowledgeTexts (basePresent : Bool) (baseRead : Except String String)
    (searchRes : Except String (List SearchHit)) : String × String :=
  if basePresent then
    match baseRead with
    | Except.error e => ("Ошибка чтения базы знаний: " ++ e, "")
    | Except.ok t =>
        let faq := if pyStrip t == "" then "База знаний пуста." else t
        match searchRes with
        | Except.error e => ("Ошибка чтения базы знаний: " ++ e, "")
        | Except.ok rs =>
            (faq,
             if rs.isEmpty then "Релевантные фрагменты не найдены."
             else String.intercalate "\n\n" (rs.map chunkLine))
  else ("", "")

/-- One rendered history line of step() section 4 (f-string applies str() to
the content). -/
def histLine (m : HMsg) : String := m.role ++ ": " ++ pyStr m.content

/-- step() section 4: the history rendered oldest-first, or the placeholder
for an empty history. -/
def dialogTextOf (hist : List HMsg) : String :=
  if hist.isEmpty then "— диалог отсутствует —"
  else String.intercalate "\n" (hist.map histLine)

/-- Modelled from the spec: the fixed system persona text DIALOG_SYS_PROMPT,
imported by dialog.py from app/services/assistant.py, which is absent from
the sources; the spec describes it only as the fixed persona/instruction
text, and no claim depends on its wording. -/
def DIALOG_SYS_PROMPT : String :=
  "Ты — Астра, консультант магазина товаров для животных. Отвечай строго в формате JSON."

/-- The greeting-nudge system message of step() lines 226-236. -/
def greetNudge : String :=
  "Если клиент ещё не представился, начни диалог с приветствия и представления от имени ассистента. Пример: \x27Здравствуйте! Меня зовут Астра, я консультант магазина товаров для животных. Как могу к вам обращаться?\x27"

/-- The known-client-info system message of step() lines 239-241: each field
renders its truthy value or the not-given placeholder. -/
def knownInfo (l : Lead) : String :=
  "Известные данные клиента:\nИмя: "
    ++ (if pyTruthy l.name then pyStr l.name else "не указано")
    ++ "\nКонтакт: "
    ++ (if pyTruthy l.contact then pyStr l.contact else "не указан")

/-- str(AttributeError) raised by `lead.name` at dialog.py line 225 when
load_history returned no lead. -/
def attrErrNoneName : String :=
  "\x27NoneType\x27 object has no attribute \x27name\x27"

/-- The collaborator outcomes that determine one turn: the order fetch, the
knowledge base (presence, FAQ read, semantic search), the current date and
the freshly drawn track number, the LLM completion, and Python json.loads as
applied to the cleaned LLM text. -/
structure TurnEnv where
  ordersRes : Except String (List OrderRec)
  basePresent : Bool
  baseRead : Except String String
  searchRes : Except String (List SearchHit)
  currentDate : String
  trackNumber : Int
  gptRes : Except String String
  jsonLoads : String → Except String JValue

/-- step() sections 5 and the message appends of lines 224-247: the seven
fixed system messages, the conditional greeting nudge (whose condition
dereferences lead.name and raises AttributeError when the lead is None), the
conditional known-info message, and the final user message.  The source
appends each conditional message to the end of the list in turn; this is
rendered as concatenation of the conditional one-element segments in the
same order, which yields the identical list. -/
def assembleMessages (env : TurnEnv) (lead : Option Lead)
    (orders_text faq_text chunks_text dialog_text user_input : String) :
    Except String (List PMsg) := do
  let messages : List PMsg := [
    ⟨"system", pyStrip DIALOG_SYS_PROMPT⟩,
    ⟨"system", "Текущая дата: " ++ env.currentDate⟩,
    ⟨"system", "Трек-номер для нового заказа: " ++ toString env.trackNumber⟩,
    ⟨"system", "Текущие заказы (таблица order):\n\n" ++ orders_text⟩,
    ⟨"system", "FAQ:\n\n" ++ pySliceTo faq_text 4000⟩,
    ⟨"system", "Релевантные фрагменты базы знаний:\n\n" ++ pySliceTo chunks_text 4000⟩,
    ⟨"system", "История диалога:\n\n" ++ pySliceTo dialog_text 2000⟩]
  let needsGreeting ← (match lead with
    | none => Except.error attrErrNoneName
    | some l => Except.ok (!pyTruthy l.name && !pyTruthy l.contact))
  let greetMsgs : List PMsg := if needsGreeting then [⟨"system", greetNudge⟩] else []
  let knownMsgs : List PMsg := (match lead with
    | some l =>
        if pyTruthy l.name || pyTruthy l.contact
        then [⟨"system", knownInfo l⟩] else []
    | none => [])
  pure (messages ++ greetMsgs ++ knownMsgs ++
    [⟨"user", "Ответ строго в формате JSON!\n\nВопрос пользователя:\n\n" ++ user_input⟩])

/-- The re.sub removing the ASCII control characters 0x00-0x1f from the raw
LLM text before json.loads (dialog.py line 256). -/
def stripCtrl (s : String) : String :=
  String.mk (s.data.filter fun c => decide (31 < c.toNat))

/-- The parsed turn result of step() section 7: response_data (empty dict on
failure), model_answer and sql_command. -/
structure Interp where
  response_data : List (String × JValue)
  model_answer : JValue
  sql_command : JValue

/-- step() section 7: the try block around json.loads and the .get calls.
A parse exception yields the diagnostic model_answer embedding str(e), an
empty response_data and sql_command None; valid JSON that is not an object
makes response_data.get raise AttributeError, which the same except clause
catches. -/
def interpret : Except String JValue → Interp
  | Except.error e =>
      ⟨[], JValue.str ("Ошибка разбора ответа модели: " ++ e), JValue.null⟩
  | Except.ok (JValue.obj kvs) =>
      ⟨kvs, jgetD kvs "model_answer" (JValue.str ""), jgetD kvs "sql" JValue.null⟩
  | Except.ok v =>
      ⟨[], JValue.str ("Ошибка разбора ответа модели: \x27" ++ pyTypeName v
          ++ "\x27 object has no attribute \x27get\x27"), JValue.null⟩

/-- step() section 8: the SQL side effect runs exactly when sql_command is a
truthy string (execute_sql never raises: it returns a success flag that only
affects logging). -/
def sqlOpsOf (v : JValue) : List Op :=
  if pyTruthy v && pyIsStr v then [Op.execSql (pyStrVal v)] else []

/-- step() section 9 (lines 283-284): dict.get with the current field as the
default, applied in place to the session-attached lead object. -/
def mergeLead (rd : List (String × JValue)) (l : Lead) : Lead :=
  ⟨l.id, jgetD rd "user_name" l.name, jgetD rd "user_contact" l.contact, l.log⟩

/-- The observable outcome of a completed turn: the returned model_answer,
the assembled prompt, the persistence side effects in order, and the stored
record after the final combined write. -/
structure TurnOut where
  answer : JValue
  messages : List PMsg
  ops : List Op
  store : Option Lead

/-- AssistantDialog.step, the whole turn: load, append the user entry,
gather context, assemble the prompt (which raises on a missing lead, see
assembleMessages), call the LLM (an LLM failure is not caught), parse,
execute the SQL side effect, merge the profile fields, append the assistant
entry and persist once. -/
def step (env : TurnEnv) (client_id : Int) (store : Option Lead)
    (user_input : String) : Except String TurnOut := do
  let (lead, history) := load_history store
  let hist1 := history ++ [(⟨"user", JValue.str user_input⟩ : HMsg)]
  let orders_text := ordersTextOf env.ordersRes
  let kt := knowledgeTexts env.basePresent env.baseRead env.searchRes
  let dialog_text := dialogTextOf hist1
  let messages ← assembleMessages env lead orders_text kt.1 kt.2 dialog_text user_input
  let raw_response ← env.gptRes
  let itp := interpret (env.jsonLoads (stripCtrl raw_response))
  let sqlOps := sqlOpsOf itp.sql_command
  let lead2 := Option.map (mergeLead itp.response_data) lead
  let hist2 := hist1 ++ [(⟨"assistant", itp.model_answer⟩ : HMsg)]
  let sv := save_history client_id lead2 hist2
  pure ⟨itp.model_answer, messages, sqlOps ++ [sv.1], sv.2⟩

/-- The spec-level name of the turn operation. -/
def processTurn : TurnEnv → Int → Option Lead → String → Except String TurnOut :=
  step

/-- The persistence side effects of a turn result (none when the turn
raised: every side-effecting statement of step() comes after the LLM call,
and the raise points precede it). -/
def opsOf : Except String TurnOut → List Op
  | Except.ok o => o.ops
  | Except.error _ => []

/-- The assembled prompt of a completed turn. -/
def promptOf : Except String TurnOut → List PMsg
  | Except.ok o => o.messages
  | Except.error _ => []

/-- The returned model_answer of a completed turn. -/
def answerOf : Except String TurnOut → JValue
  | Except.ok o => o.answer
  | Except.error _ => JValue.null

/-- Whether the turn completed (returned to the route) rather than raised. -/
def turnCompleted : Except String TurnOut → Bool
  | Except.ok _ => true
  | Except.error _ => false

/-- Engine writes of the lead record (profile-state persistence). -/
def isLeadWrite : Op → Bool
  | Op.updateLead _ _ _ _ => true
  | Op.createLead _ _ _ => true
  | Op.execSql _ => false

/-- LLM-directed SQL executor invocations. -/
def isSqlExec : Op → Bool
  | Op.execSql _ => true
  | _ => false

/-- The lead writes of a turn, in order. -/
def leadWrites (r : Except String TurnOut) : List Op :=
  (opsOf r).filter isLeadWrite

/-- The SQL executor invocations of a turn, in order. -/
def sqlExecs (r : Except String TurnOut) : List Op :=
  (opsOf r).filter isSqlExec

/-- The stored record after the request: the turn's final store on
completion, the untouched prior store when the turn raised. -/
def finalStore (store : Option Lead) : Except String TurnOut → Option Lead
  | Except.ok o => o.store
  | Except.error _ => store

/-- The history carried by the single lead write of a turn, when there is
exactly one such write. -/
def writtenHist (r : Except String TurnOut) : Option (List HMsg) :=
  match leadWrites r with
  | [Op.updateLead _ _ _ (HistVal.ok h)] => some h
  | [Op.createLead _ _ (HistVal.ok h)] => some h
  | _ => none

/-- The name, contact and log of the stored record, when present. -/
def profileView (store : Option Lead) : Option (JValue × JValue × Option HistVal) :=
  store.map fun l => (l.name, l.contact, l.log)

/-- The json.loads oracle of the C4 counterexample run: the cleaned LLM
reply parses to the empty object. -/
def jlC4 : String → Except String JValue := fun _ => Except.ok (JValue.obj [])

/-- The turn environment of the C4 counterexample run: the knowledge base is
installed, the FAQ read succeeds with the text FAQDATA, the semantic search
raises with message boom, everything else succeeds. -/
def envC4 : TurnEnv :=
  ⟨Except.ok [], true, Except.ok "FAQDATA", Except.error "boom",
   "2026-01-01", 123456, Except.ok "\x7b\x7d", jlC4⟩

/-- The C4 counterexample turn: an existing profile, user input q. -/
def rC4 : Except String TurnOut :=
  step envC4 1 (some ⟨1, JValue.null, JValue.null, none⟩) "q"

/-- A 2500-character content string for the C8 counterexample. -/
def longA : String := String.mk (List.replicate 2500 'a')

/-- A stored history whose rendering exceeds the 2000-character budget. -/
def histC8 : List HMsg := [⟨"user", JValue.str longA⟩]

/-- The rendered conversation-history text of the C8 counterexample turn
(stored history plus the appended user entry). -/
def dtextC8 : String := dialogTextOf (histC8 ++ [⟨"user", JValue.str "hi"⟩])

/-- The json.loads oracle of the C8 counterexample run. -/
def jlC8 : String → Except String JValue := fun _ => Except.ok (JValue.obj [])

/-- The turn environment of the C8 counterexample run. -/
def envC8 : TurnEnv :=
  ⟨Except.ok [], false, Except.ok "", Except.ok [],
   "2026-01-01", 123456, Except.ok "\x7b\x7d", jlC8⟩

/-- The C8 counterexample turn: the stored log holds histC8. -/
def rC8 : Except String TurnOut :=
  step envC8 1 (some ⟨1, JValue.str "B", JValue.null, some (HistVal.ok histC8)⟩) "hi"

/-- The json.loads oracle of the C5 witness run: parsing fails with the
CPython message for non-JSON text. -/
def jlC5 : String → Except String JValue :=
  fun _ => Except.error "Expecting value: line 1 column 1 (char 0)"

/-- The json.loads oracle of the C10 witness run: the parsed object carries
a numeric (non-string) sql value. -/
def jlC10 : String → Except String JValue :=
  fun _ => Except.ok (JValue.obj [("sql", JValue.num 5), ("model_answer", JValue.str "ok")])

/-- The stored lead of the C5 witness run: known name, null contact, a
two-entry stored history. -/
def lC5 : Lead :=
  ⟨7, JValue.str "Ann", JValue.null,
   some (HistVal.ok [⟨"user", JValue.str "q1"⟩, ⟨"assistant", JValue.str "a1"⟩])⟩

/-- The turn environment of the C5 witness run: the LLM answers with
non-JSON text. -/
def envC5 : TurnEnv :=
  ⟨Except.ok [], false, Except.ok "", Except.ok [],
   "2026-01-01", 111111, Except.ok "not json", jlC5⟩

/-- The C5 witness turn. -/
def rC5 : Except String TurnOut := step envC5 7 (some lC5) "hi"

/-- The stored lead of the C10 witness run. -/
def lC10 : Lead := ⟨3, JValue.null, JValue.null, none⟩

/-- The turn environment of the C10 witness run. -/
def envC10 : TurnEnv :=
  ⟨Except.ok [], false, Except.ok "", Except.ok [],
   "2026-01-01", 222222, Except.ok "x", jlC10⟩

/-- The C10 witness turn. -/
def rC10 : Except String TurnOut := step envC10 3 (some lC10) "del"

/-- jgetD is jlookup with a default. -/
theorem jgetD_eq_getD_jlookup (kvs : List (String × JValue)) (k : String) (d : JValue) :
    jgetD kvs k d = (jlookup kvs k).getD d := by
  induction kvs with
  | nil => rfl
  | cons p rest ih =>
      obtain ⟨a, b⟩ := p
      by_cases h : a == k
      · simp [jgetD, jlookup, h]
      · simp [jgetD, jlookup, h, ih]

/-- Unpacking a packed character list. -/
theorem data_mk (l : List Char) : (String.mk l).data = l := rfl

/-- The SQL side-effect segment of the turn trace contains no lead write. -/
theorem filter_isLeadWrite_sqlOps (v : JValue) (a : Int) (n c : JValue) (h : HistVal) :
    List.filter isLeadWrite (sqlOpsOf v ++ [Op.updateLead a n c h])
      = [Op.updateLead a n c h] := by
  unfold sqlOpsOf
  split <;> simp [List.filter, isLeadWrite]

/-- The final combined lead write is not an SQL executor invocation. -/
theorem filter_isSqlExec_sqlOps (v : JValue) (a : Int) (n c : JValue) (h : HistVal) :
    List.filter isSqlExec (sqlOpsOf v ++ [Op.updateLead a n c h]) = sqlOpsOf v := by
  unfold sqlOpsOf
  split <;> simp [List.filter, isSqlExec]

/-- The parse-failure diagnostic is never the empty string. -/
theorem diag_ne_empty (e : String) :
    ("Ошибка разбора ответа модели: " ++ e) ≠ "" := by
  intro h
  have h2 : ("Ошибка разбора ответа модели: " ++ e).length = 0 := by rw [h]; rfl
  rw [String.length_append] at h2
  have h3 : (0 : Nat) < ("Ошибка разбора ответа модели: ").length := by decide
  omega

/-- C1: the spec says a turn for a client with no stored profile record
proceeds with a null profile and completes; the code instead dereferences
the None lead at dialog.py line 225 and raises AttributeError before the LLM
call, for every environment and input, so the turn fails, nothing is
persisted and no profile record is created. -/
theorem C1_missing_profile_turn_raises (env : TurnEnv) (cid : Int) (input : String) :
    step env cid none input = Except.error attrErrNoneName
      ∧ finalStore none (step env cid none input) = none
      ∧ opsOf (step env cid none input) = [] :=
  ⟨rfl, rfl, rfl⟩

/-- C2 counterexample: save_history with no prior lead does NOT issue a
create with clientId as the identity: the write carries no client identity
(the id kwarg is dropped by LeadCreate) and the clientId-keyed record is not
created. -/
theorem C2_counterexample_create_drops_id :
    save_history 42 none []
        = (Op.createLead JValue.null JValue.null (HistVal.ok []), none)
      ∧ (save_history 42 none []).2
          ≠ some ⟨42, JValue.null, JValue.null, some (HistVal.ok [])⟩ :=
  ⟨rfl, fun h => Option.noConfusion h⟩

/-- C2 amended: a turn that completes persists the profile through exactly
one combined lead write, keyed by client_id, carrying the merged name, the
merged contact and the serialized extended history together (a profile
always exists for a completing turn); save_history with no prior lead issues
a single identity-less autoincrement insert carrying null name, null contact
and the serialized history, leaving the clientId-keyed record absent. -/
theorem C2_single_combined_write (ords : Except String (List OrderRec)) (bp : Bool)
    (br : Except String String) (sr : Except String (List SearchHit))
    (dt : String) (tn : Int) (raw : String) (jl : String → Except String JValue)
    (cid : Int) (l0 : Lead) (input : String) :
    leadWrites (step ⟨ords, bp, br, sr, dt, tn, Except.ok raw, jl⟩ cid (some l0) input)
        = [Op.updateLead cid
            (mergeLead (interpret (jl (stripCtrl raw))).response_data l0).name
            (mergeLead (interpret (jl (stripCtrl raw))).response_data l0).contact
            (HistVal.ok (parseLog l0.log ++ [⟨"user", JValue.str input⟩,
                ⟨"assistant", (interpret (jl (stripCtrl raw))).model_answer⟩]))]
      ∧ (∀ h, save_history cid none h
          = (Op.createLead JValue.null JValue.null (HistVal.ok h), none)) := by
  constructor
  · have h0 : leadWrites (step ⟨ords, bp, br, sr, dt, tn, Except.ok raw, jl⟩ cid (some l0) input)
        = List.filter isLeadWrite
            (sqlOpsOf (interpret (jl (stripCtrl raw))).sql_command
              ++ [Op.updateLead cid
                    (mergeLead (interpret (jl (stripCtrl raw))).response_data l0).name
                    (mergeLead (interpret (jl (stripCtrl raw))).response_data l0).contact
                    (HistVal.ok ((parseLog l0.log ++ [⟨"user", JValue.str input⟩])
                      ++ [⟨"assistant", (interpret (jl (stripCtrl raw))).model_answer⟩]))]) := rfl
    rw [h0, filter_isLeadWrite_sqlOps]
    simp
  · intro h
    rfl

/-- C6: when the LLM completion call fails, the failure is not caught: step
raises it to the caller unchanged, and nothing is persisted — the stored
record is exactly what it was before the turn (every side-effecting
statement of step() comes after the gpt_request call). -/
theorem C6_llm_failure_propagates (ords : Except String (List OrderRec)) (bp : Bool)
    (br : Except String String) (sr : Except String (List SearchHit))
    (dt : String) (tn : Int) (e : String) (jl : String → Except String JValue)
    (cid : Int) (l0 : Lead) (input : String) :
    step ⟨ords, bp, br, sr, dt, tn, Except.error e, jl⟩ cid (some l0) input
        = Except.error e
      ∧ finalStore (some l0)
          (step ⟨ords, bp, br, sr, dt, tn, Except.error e, jl⟩ cid (some l0) input)
          = some l0
      ∧ opsOf (step ⟨ords, bp, br, sr, dt, tn, Except.error e, jl⟩ cid (some l0) input)
          = [] :=
  ⟨rfl, rfl, rfl⟩

/-- C9: the claim (and the code's own comments and log message,
"создаём пустого" / "Создан пустой лид") intend clear_dialog to create the
client's record when absent, making the second call an update and leaving an
empty clientId-keyed profile; but the create drops the id (LeadCreate
declares no id field), so with no stored record both calls insert
identity-less autoincrement rows, the second call re-creates instead of
updating, and the clientId-keyed profile is never created.  For an existing
record the update path is idempotent as claimed. -/
theorem C9_clear_missing_record_never_created (cid : Int) :
    clear_dialog cid none
        = (Op.createLead JValue.null JValue.null (HistVal.ok []), none)
      ∧ clear_dialog cid ((clear_dialog cid none).2)
          = (Op.createLead JValue.null JValue.null (HistVal.ok []), none)
      ∧ profileView ((clear_dialog cid ((clear_dialog cid none).2)).2) = none
      ∧ (∀ l : Lead, clear_dialog cid (some l)
          = (Op.updateLead cid JValue.null JValue.null (HistVal.ok []),
             some ⟨l.id, JValue.null, JValue.null, some (HistVal.ok [])⟩)) :=
  ⟨rfl, rfl, rfl, fun l => rfl⟩

/-- C3 counterexample: the LLM response provides user_name as the empty
string while the profile name is Boris; the claim requires the previous
value to be retained, but the merge sets the name to the empty string. -/
theorem C3_counterexample_empty_overwrites :
    (mergeLead [("user_name", JValue.str "")]
        ⟨1, JValue.str "Boris", JValue.null, none⟩).name = JValue.str ""
      ∧ (mergeLead [("user_name", JValue.str "")]
          ⟨1, JValue.str "Boris", JValue.null, none⟩).name ≠ JValue.str "Boris" := by
  refine ⟨rfl, ?_⟩
  intro h
  injection h with h2
  exact absurd h2 (by decide)

/-- C3 amended: after the merge step the profile field equals the provided
value whenever the key is present in the parsed response — including a null
or empty value, which overwrites the previous one — and retains its previous
value exactly when the key is absent. -/
theorem C3_present_key_overwrites (rd : List (String × JValue)) (l : Lead) :
    (∀ v, jlookup rd "user_name" = some v → (mergeLead rd l).name = v)
      ∧ (jlookup rd "user_name" = none → (mergeLead rd l).name = l.name)
      ∧ (∀ v, jlookup rd "user_contact" = some v → (mergeLead rd l).contact = v)
      ∧ (jlookup rd "user_contact" = none → (mergeLead rd l).contact = l.contact) := by
  refine ⟨fun v hv => ?_, fun hv => ?_, fun v hv => ?_, fun hv => ?_⟩ <;>
    simp [mergeLead, jgetD_eq_getD_jlookup, hv]

/-- C3 amended, witnessed at a concrete input: a present empty user_name and
a present null user_contact both overwrite the previous values. -/
theorem C3_present_key_overwrites_witness :
    (mergeLead [("user_name", JValue.str ""), ("user_contact", JValue.null)]
        ⟨1, JValue.str "Boris", JValue.str "b@x", none⟩).name = JValue.str ""
      ∧ (mergeLead [("user_name", JValue.str ""), ("user_contact", JValue.null)]
          ⟨1, JValue.str "Boris", JValue.str "b@x", none⟩).contact = JValue.null :=
  ⟨(C3_present_key_overwrites _ _).1 _ rfl,
   (C3_present_key_overwrites _ _).2.2.1 _ rfl⟩

/-- C4 counterexample: the FAQ read succeeds with FAQDATA and the semantic
search fails with boom; the turn completes, but the failure string lands in
the FAQ section of the prompt (replacing FAQDATA) and the relevant-fragments
section is left empty, contrary to the claim. -/
theorem C4_counterexample_error_in_faq_section :
    (promptOf rC4)[4]? = some ⟨"system", "FAQ:\n\nОшибка чтения базы знаний: boom"⟩
      ∧ (promptOf rC4)[4]? ≠ some ⟨"system", "FAQ:\n\nFAQDATA"⟩
      ∧ (promptOf rC4)[5]? = some ⟨"system", "Релевантные фрагменты базы знаний:\n\n"⟩
      ∧ turnCompleted rC4 = true := by
  refine ⟨by decide, by decide, by decide, rfl⟩

/-- C4 amended: when the semantic search collaborator fails, the turn still
completes and returns an answer, but the failure string is assigned to the
FAQ section (overwriting the successfully read FAQ text) and the
relevant-fragments section of the prompt is left empty. -/
theorem C4_search_failure_fills_faq_section (ords : Except String (List OrderRec))
    (t e : String) (dt : String) (tn : Int) (raw : String)
    (jl : String → Except String JValue) (cid : Int) (l0 : Lead) (input : String) :
    turnCompleted (step ⟨ords, true, Except.ok t, Except.error e, dt, tn,
        Except.ok raw, jl⟩ cid (some l0) input) = true
      ∧ (promptOf (step ⟨ords, true, Except.ok t, Except.error e, dt, tn,
            Except.ok raw, jl⟩ cid (some l0) input)).get? 4
          = some ⟨"system", "FAQ:\n\n" ++ pySliceTo ("Ошибка чтения базы знаний: " ++ e) 4000⟩
      ∧ (promptOf (step ⟨ords, true, Except.ok t, Except.error e, dt, tn,
            Except.ok raw, jl⟩ cid (some l0) input)).get? 5
          = some ⟨"system", "Релевантные фрагменты базы знаний:\n\n"⟩ := by
  refine ⟨rfl, rfl, ?_⟩
  have h : (promptOf (step ⟨ords, true, Except.ok t, Except.error e, dt, tn,
        Except.ok raw, jl⟩ cid (some l0) input)).get? 5
      = some (⟨"system", "Релевантные фрагменты базы знаний:\n\n" ++ pySliceTo "" 4000⟩ : PMsg) := rfl
  rw [h, show ("Релевантные фрагменты базы знаний:\n\n" ++ pySliceTo "" 4000)
      = "Релевантные фрагменты базы знаний:\n\n" from by decide]

/-- C5: when json.loads fails on the cleaned LLM text, the turn still
completes and returns the diagnostic embedding the exception text, which is
non-empty; no SQL executor invocation happens; the single combined write
carries the unchanged name and contact and a history extended by exactly the
user entry and the diagnostic assistant entry. -/
theorem C5_malformed_response (ords : Except String (List OrderRec)) (bp : Bool)
    (br : Except String String) (sr : Except String (List SearchHit))
    (dt : String) (tn : Int) (raw : String) (jl : String → Except String JValue)
    (cid : Int) (l0 : Lead) (input e : String)
    (hp : jl (stripCtrl raw) = Except.error e) :
    answerOf (step ⟨ords, bp, br, sr, dt, tn, Except.ok raw, jl⟩ cid (some l0) input)
        = JValue.str ("Ошибка разбора ответа модели: " ++ e)
      ∧ ("Ошибка разбора ответа модели: " ++ e) ≠ ""
      ∧ sqlExecs (step ⟨ords, bp, br, sr, dt, tn, Except.ok raw, jl⟩ cid (some l0) input)
          = []
      ∧ leadWrites (step ⟨ords, bp, br, sr, dt, tn, Except.ok raw, jl⟩ cid (some l0) input)
          = [Op.updateLead cid l0.name l0.contact (HistVal.ok
              (parseLog l0.log ++ [(⟨"user", JValue.str input⟩ : HMsg),
                (⟨"assistant", JValue.str ("Ошибка разбора ответа модели: " ++ e)⟩ : HMsg)]))]
      ∧ (parseLog l0.log ++ [(⟨"user", JValue.str input⟩ : HMsg),
            (⟨"assistant", JValue.str ("Ошибка разбора ответа модели: " ++ e)⟩ : HMsg)]).length
          = (parseLog l0.log).length + 2 := by
  refine ⟨?_, diag_ne_empty e, ?_, ?_, by simp⟩
  · have h0 : answerOf (step ⟨ords, bp, br, sr, dt, tn, Except.ok raw, jl⟩ cid (some l0) input)
        = (interpret (jl (stripCtrl raw))).model_answer := rfl
    rw [h0, hp]
    rfl
  · have h1 : sqlExecs (step ⟨ords, bp, br, sr, dt, tn, Except.ok raw, jl⟩ cid (some l0) input)
        = List.filter isSqlExec
            (sqlOpsOf (interpret (jl (stripCtrl raw))).sql_command
              ++ [Op.updateLead cid
                    (mergeLead (interpret (jl (stripCtrl raw))).response_data l0).name
                    (mergeLead (interpret (jl (stripCtrl raw))).response_data l0).contact
                    (HistVal.ok ((parseLog l0.log ++ [(⟨"user", JValue.str input⟩ : HMsg)])
                      ++ [(⟨"assistant", (interpret (jl (stripCtrl raw))).model_answer⟩ : HMsg)]))]) := rfl
    rw [h1, hp, filter_isSqlExec_sqlOps]
    rfl
  · have h2 : leadWrites (step ⟨ords, bp, br, sr, dt, tn, Except.ok raw, jl⟩ cid (some l0) input)
        = List.filter isLeadWrite
            (sqlOpsOf (interpret (jl (stripCtrl raw))).sql_command
              ++ [Op.updateLead cid
                    (mergeLead (interpret (jl (stripCtrl raw))).response_data l0).name
                    (mergeLead (interpret (jl (stripCtrl raw))).response_data l0).contact
                    (HistVal.ok ((parseLog l0.log ++ [(⟨"user", JValue.str input⟩ : HMsg)])
                      ++ [(⟨"assistant", (interpret (jl (stripCtrl raw))).model_answer⟩ : HMsg)]))]) := rfl
    rw [h2, hp, filter_isLeadWrite_sqlOps]
    simp [interpret, mergeLead, jgetD]

/-- C5 witnessed at a concrete turn: stored profile lC5, LLM text that fails
to parse with the CPython diagnostic. -/
theorem C5_malformed_response_witness :
    answerOf rC5
        = JValue.str ("Ошибка разбора ответа модели: "
            ++ "Expecting value: line 1 column 1 (char 0)")
      ∧ ("Ошибка разбора ответа модели: "
            ++ "Expecting value: line 1 column 1 (char 0)") ≠ ""
      ∧ sqlExecs rC5 = []
      ∧ leadWrites rC5
          = [Op.updateLead 7 (JValue.str "Ann") JValue.null (HistVal.ok
              (parseLog lC5.log ++ [(⟨"user", JValue.str "hi"⟩ : HMsg),
                (⟨"assistant", JValue.str ("Ошибка разбора ответа модели: "
                  ++ "Expecting value: line 1 column 1 (char 0)")⟩ : HMsg)]))]
      ∧ (parseLog lC5.log ++ [(⟨"user", JValue.str "hi"⟩ : HMsg),
            (⟨"assistant", JValue.str ("Ошибка разбора ответа модели: "
              ++ "Expecting value: line 1 column 1 (char 0)")⟩ : HMsg)]).length
          = (parseLog lC5.log).length + 2 :=
  C5_malformed_response (Except.ok []) false (Except.ok "") (Except.ok [])
    "2026-01-01" 111111 "not json" jlC5 7 lC5 "hi"
    "Expecting value: line 1 column 1 (char 0)" rfl

/-- C7: every completing turn persists, in its single lead write, the prior
stored history (tolerantly decoded) extended by exactly one user entry and
one assistant entry carrying the returned answer: the persisted history
length grows by exactly 2. -/
theorem C7_history_grows_by_two (ords : Except String (List OrderRec)) (bp : Bool)
    (br : Except String String) (sr : Except String (List SearchHit))
    (dt : String) (tn : Int) (raw : String) (jl : String → Except String JValue)
    (cid : Int) (l0 : Lead) (input : String) :
    writtenHist (step ⟨ords, bp, br, sr, dt, tn, Except.ok raw, jl⟩ cid (some l0) input)
        = some (parseLog l0.log ++ [(⟨"user", JValue.str input⟩ : HMsg),
            (⟨"assistant", (interpret (jl (stripCtrl raw))).model_answer⟩ : HMsg)])
      ∧ answerOf (step ⟨ords, bp, br, sr, dt, tn, Except.ok raw, jl⟩ cid (some l0) input)
          = (interpret (jl (stripCtrl raw))).model_answer
      ∧ (parseLog l0.log ++ [(⟨"user", JValue.str input⟩ : HMsg),
            (⟨"assistant", (interpret (jl (stripCtrl raw))).model_answer⟩ : HMsg)]).length
          = (parseLog l0.log).length + 2 := by
  refine ⟨?_, rfl, by simp⟩
  unfold writtenHist
  have h0 : leadWrites (step ⟨ords, bp, br, sr, dt, tn, Except.ok raw, jl⟩ cid (some l0) input)
      = List.filter isLeadWrite
          (sqlOpsOf (interpret (jl (stripCtrl raw))).sql_command
            ++ [Op.updateLead cid
                  (mergeLead (interpret (jl (stripCtrl raw))).response_data l0).name
                  (mergeLead (interpret (jl (stripCtrl raw))).response_data l0).contact
                  (HistVal.ok ((parseLog l0.log ++ [(⟨"user", JValue.str input⟩ : HMsg)])
                    ++ [(⟨"assistant", (interpret (jl (stripCtrl raw))).model_answer⟩ : HMsg)]))]) := rfl
  rw [h0, filter_isLeadWrite_sqlOps]
  simp

/-- C8 counterexample: a stored history whose rendering exceeds 2000
characters; the prompt's history section keeps the leading slice of the
rendered text (which starts with the oldest line), while the trailing slice
the claim describes starts inside the oldest entry's padding — the two
slices differ already at their first character. -/
theorem C8_counterexample_leading_slice :
    (promptOf rC8)[6]?
        = some ⟨"system", "История диалога:\n\n" ++ pySliceTo dtextC8 2000⟩
      ∧ pySliceTo dtextC8 2000 ≠ pySliceLast dtextC8 2000 := by
  refine ⟨rfl, ?_⟩
  have hdata : dtextC8.data
      = "user: ".data ++ (List.replicate 2500 'a' ++ ("\n" ++ "user: hi").data) := by
    have hd : dtextC8 = (("user: " ++ longA) ++ "\n") ++ "user: hi" := rfl
    have hA : longA.data = List.replicate 2500 'a' := rfl
    rw [hd]
    simp only [String.data_append, hA, List.append_assoc]
  have hlen : dtextC8.data.length = 2515 := by
    rw [hdata]
    simp only [List.length_append, List.length_replicate]
    decide
  have h1 : (pySliceTo dtextC8 2000).data.head? = some 'u' := by
    show (dtextC8.data.take 2000).head? = some 'u'
    rw [List.head?_eq_getElem?, List.getElem?_take_of_lt (by decide : (0:Nat) < 2000),
      hdata, List.getElem?_append_left (by decide : (0:Nat) < "user: ".data.length)]
    decide
  have h2 : (pySliceLast dtextC8 2000).data.head? = some 'a' := by
    simp only [pySliceLast, data_mk]
    rw [hlen, hdata, List.head?_eq_getElem?, List.getElem?_drop,
      List.getElem?_append_right (by decide : "user: ".data.length ≤ 2515 - 2000 + 0)]
    have hidx : 2515 - 2000 + 0 - "user: ".data.length = 509 := by decide
    have hlt : (509:Nat) < (List.replicate 2500 'a').length := by
      rw [List.length_replicate]
      decide
    rw [hidx, List.getElem?_append_left hlt]
    exact List.getElem?_replicate_of_lt (by decide)
  intro h
  rw [h, h2] at h1
  exact absurd h1 (by decide)

/-- C8 amended: the history message renders the history oldest-first as
role-colon-content lines, and is truncated to the 2000-character budget by
keeping the text's LEADING slice: truncation drops the trailing (most
recent) content and retains the oldest. -/
theorem C8_history_truncation_keeps_oldest (ords : Except String (List OrderRec))
    (bp : Bool) (br : Except String String) (sr : Except String (List SearchHit))
    (dt : String) (tn : Int) (raw : String) (jl : String → Except String JValue)
    (cid : Int) (l0 : Lead) (input : String) :
    (promptOf (step ⟨ords, bp, br, sr, dt, tn, Except.ok raw, jl⟩ cid (some l0) input)).get? 6
        = some ⟨"system", "История диалога:\n\n"
            ++ pySliceTo (dialogTextOf (parseLog l0.log
                ++ [(⟨"user", JValue.str input⟩ : HMsg)])) 2000⟩
      ∧ dialogTextOf (parseLog l0.log ++ [(⟨"user", JValue.str input⟩ : HMsg)])
          = String.intercalate "\n"
              ((parseLog l0.log ++ [(⟨"user", JValue.str input⟩ : HMsg)]).map histLine)
      ∧ (pySliceTo (dialogTextOf (parseLog l0.log
            ++ [(⟨"user", JValue.str input⟩ : HMsg)])) 2000).data
            ++ (dialogTextOf (parseLog l0.log
                ++ [(⟨"user", JValue.str input⟩ : HMsg)])).data.drop 2000
          = (dialogTextOf (parseLog l0.log
              ++ [(⟨"user", JValue.str input⟩ : HMsg)])).data := by
  refine ⟨rfl, ?_, ?_⟩
  · have hne : (parseLog l0.log ++ [(⟨"user", JValue.str input⟩ : HMsg)]).isEmpty = false := by
      simp
    simp [dialogTextOf, hne]
  · exact List.take_append_drop 2000
      (dialogTextOf (parseLog l0.log ++ [(⟨"user", JValue.str input⟩ : HMsg)])).data

/-- C10: when the parsed response is an object, the turn completes; the SQL
executor is invoked zero times when the sql value is not a string or is a
falsy value, and exactly once with the sql text when the value is a
non-empty (truthy) string. -/
theorem C10_sql_guard (ords : Except String (List OrderRec)) (bp : Bool)
    (br : Except String String) (sr : Except String (List SearchHit))
    (dt : String) (tn : Int) (raw : String) (jl : String → Except String JValue)
    (cid : Int) (l0 : Lead) (input : String) (rd : List (String × JValue))
    (hp : jl (stripCtrl raw) = Except.ok (JValue.obj rd)) :
    turnCompleted (step ⟨ords, bp, br, sr, dt, tn, Except.ok raw, jl⟩ cid (some l0) input)
        = true
      ∧ (pyIsStr (jgetD rd "sql" JValue.null) = false →
          sqlExecs (step ⟨ords, bp, br, sr, dt, tn, Except.ok raw, jl⟩ cid (some l0) input) = [])
      ∧ (pyTruthy (jgetD rd "sql" JValue.null) = false →
          sqlExecs (step ⟨ords, bp, br, sr, dt, tn, Except.ok raw, jl⟩ cid (some l0) input) = [])
      ∧ (∀ s, jgetD rd "sql" JValue.null = JValue.str s → s ≠ "" →
          sqlExecs (step ⟨ords, bp, br, sr, dt, tn, Except.ok raw, jl⟩ cid (some l0) input)
            = [Op.execSql s]) := by
  have h1 : sqlExecs (step ⟨ords, bp, br, sr, dt, tn, Except.ok raw, jl⟩ cid (some l0) input)
      = List.filter isSqlExec
          (sqlOpsOf (interpret (jl (stripCtrl raw))).sql_command
            ++ [Op.updateLead cid
                  (mergeLead (interpret (jl (stripCtrl raw))).response_data l0).name
                  (mergeLead (interpret (jl (stripCtrl raw))).response_data l0).contact
                  (HistVal.ok ((parseLog l0.log ++ [(⟨"user", JValue.str input⟩ : HMsg)])
                    ++ [(⟨"assistant", (interpret (jl (stripCtrl raw))).model_answer⟩ : HMsg)]))]) := rfl
  rw [hp, filter_isSqlExec_sqlOps] at h1
  refine ⟨rfl, fun h => ?_, fun h => ?_, fun s hv hs => ?_⟩
  · rw [h1]
    simp only [interpret]
    simp [sqlOpsOf, h]
  · rw [h1]
    simp only [interpret]
    simp [sqlOpsOf, h]
  · rw [h1]
    simp only [interpret]
    rw [hv]
    simp [sqlOpsOf, pyTruthy, pyIsStr, pyStrVal, hs]

/-- C10 witnessed at a concrete turn: the parsed sql value is the number 5,
so the executor runs zero times and the turn completes. -/
theorem C10_sql_guard_witness :
    turnCompleted rC10 = true ∧ sqlExecs rC10 = [] :=
  ⟨(C10_sql_guard (Except.ok []) false (Except.ok "") (Except.ok [])
      "2026-01-01" 222222 "x" jlC10 3 lC10 "del"
      [("sql", JValue.num 5), ("model_answer", JValue.str "ok")] rfl).1,
   (C10_sql_guard (Except.ok []) false (Except.ok "") (Except.ok [])
      "2026-01-01" 222222 "x" jlC10 3 lC10 "del"
      [("sql", JValue.num 5), ("model_answer", JValue.str "ok")] rfl).2.1 rfl⟩

end App
